import Mathlib

/-!
Shallow embedding of
`src/integration/vscode/ada/src/refactoring/alsAddParameterCommand.ts`.

The file exports a single async executor for the
`als-refactor-add-parameters` command.  Effects are embedded explicitly:

* `undefined` TypeScript field values become `Option.none`;
* the call to `window.showInputBox` is embedded by a `userInput : Option String`
  parameter (`none` models the user cancelling the box, `some t` the user
  confirming text `t`);
* the promise outcome becomes an `ExecResult` (either `rejected msg` for
  `Promise.reject(msg)` or `resolved b` for a promise resolving to `b`);
* the mutation of the argument record is embedded by returning the final
  record, and whether (and with which options) an input box was shown is
  recorded in the `promptShown` field of the outcome.
-/

/-- Grammar-rule identifiers used by the executor.  The source imports the
`AdaGrammarRule` enumeration from `../alsProtocolExtensions`; the executor
only ever mentions these three members, which are opaque selectors here. -/
inductive AdaGrammarRule where
  | Param_Spec_Rule
  | Defining_Id_Rule
  | Defining_Id_List_Rule
  deriving DecidableEq, Repr

/-- Argument record of the `als-refactor-add-parameters` command.  The
TypeScript type declares `newParameter: string` and
`requiresFullSpecification: boolean`, but the executor explicitly guards
against either field being `undefined` at runtime (a version mismatch with
the server), so each field is embedded as an `Option` with `none` for
`undefined`. -/
structure AddParameterCommandArgs where
  newParameter : Option String
  requiresFullSpecification : Option Bool
  deriving DecidableEq, Repr

/-- Closure state of the `AdaSyntaxCheckProvider` constructed by the executor:
its constructor captures the grammar rules and the diagnostic message, and
its `sendCheckSyntaxRequest` member is the validation capability bound to
exactly this data. -/
structure AdaSyntaxCheckProvider where
  rules : List AdaGrammarRule
  diagnostic : String
  deriving DecidableEq, Repr

/-- Embedding of the `InputBoxOptions` value built by the executor.  The
`validateInput` callback is the `sendCheckSyntaxRequest` capability of the
provider it was taken from, so it is embedded as that provider's data. -/
structure InputBoxOptions where
  title : String
  prompt : String
  ignoreFocusOut : Bool
  validateInput : AdaSyntaxCheckProvider
  deriving DecidableEq, Repr

/-- Outcome of the returned `Promise<boolean>`: either rejected with a string
diagnostic, or resolved with a boolean. -/
inductive ExecResult where
  | rejected (msg : String)
  | resolved (value : Bool)
  deriving DecidableEq, Repr

/-- Observable outcome of one invocation of the executor: the promise result,
the argument record as it stands after the call (the source mutates
`args.newParameter` in place), and the options of the input box that was
shown, or `none` when no box was shown. -/
structure ExecOutcome where
  result : ExecResult
  finalArgs : AddParameterCommandArgs
  promptShown : Option InputBoxOptions
  deriving DecidableEq, Repr

/-- The fixed diagnostic string used by the executor for a malformed
invocation (either required field `undefined`). -/
def missingFieldDiagnostic : String :=
  "Invalid als-refactor-add-parameters command: missing \"requiresFullSpecification\" field"

/-- Embedding of `alsAddParameterCommandExecutor`.  The `client` parameter of
the source only flows into the `AdaSyntaxCheckProvider` constructor and
carries no data the outcome depends on, so it is dropped.  `userInput` is
what `window.showInputBox` returns. -/
def alsAddParameterCommandExecutor (args : AddParameterCommandArgs)
    (userInput : Option String) : ExecOutcome :=
  match args.requiresFullSpecification, args.newParameter with
  | some flag, some _ =>
      let prompt :=
        if flag then
          "Insert a full parameter specification"
        else
          "Insert one or more comma-separated parameter names or a full parameter specification"
      let rules :=
        if flag then
          [AdaGrammarRule.Param_Spec_Rule]
        else
          [AdaGrammarRule.Defining_Id_Rule, AdaGrammarRule.Defining_Id_List_Rule,
            AdaGrammarRule.Param_Spec_Rule]
      let diagnostic :=
        if flag then
          "This is not a syntactically valid full parameter specification"
        else
          "This is not a syntactically valid parameter name or full parameter specification"
      let adaSyntaxCheckProvider : AdaSyntaxCheckProvider := ⟨rules, diagnostic⟩
      let inputBoxOptions : InputBoxOptions :=
        { title := "Add Parameter(s)"
          prompt := prompt
          ignoreFocusOut := true
          validateInput := adaSyntaxCheckProvider }
      match userInput with
      | some input =>
          { result := .resolved true
            finalArgs := { args with newParameter := some input }
            promptShown := some inputBoxOptions }
      | none =>
          { result := .resolved false
            finalArgs := args
            promptShown := some inputBoxOptions }
  | _, _ =>
      { result := .rejected missingFieldDiagnostic
        finalArgs := args
        promptShown := none }

/-- C1: whenever either required field of the argument record is absent, the
executor rejects with the one fixed missing-field diagnostic string and no
input box is shown. -/
theorem C1_missing_field_rejects_without_prompt
    (args : AddParameterCommandArgs) (userInput : Option String)
    (h : args.newParameter = none ∨ args.requiresFullSpecification = none) :
    (alsAddParameterCommandExecutor args userInput).result
        = ExecResult.rejected missingFieldDiagnostic ∧
    (alsAddParameterCommandExecutor args userInput).promptShown = none := by
  cases hf : args.requiresFullSpecification <;>
    cases hn : args.newParameter <;>
    simp_all [alsAddParameterCommandExecutor]

/-- Witness for C1 at the concrete record with an absent text field. -/
theorem C1_missing_field_rejects_without_prompt_witness :
    (alsAddParameterCommandExecutor ⟨none, some true⟩ (some "x")).result
        = ExecResult.rejected missingFieldDiagnostic ∧
    (alsAddParameterCommandExecutor ⟨none, some true⟩ (some "x")).promptShown = none :=
  C1_missing_field_rejects_without_prompt ⟨none, some true⟩ (some "x") (Or.inl rfl)

/-- C2: with both fields present, confirming text `t` makes the executor
resolve to `true` with the record's `newParameter` field equal to `t`. -/
theorem C2_confirmation_resolves_true_and_sets_text
    (args : AddParameterCommandArgs) (flag : Bool) (p t : String)
    (hf : args.requiresFullSpecification = some flag)
    (hn : args.newParameter = some p) :
    (alsAddParameterCommandExecutor args (some t)).result
        = ExecResult.resolved true ∧
    (alsAddParameterCommandExecutor args (some t)).finalArgs.newParameter = some t := by
  cases args
  simp_all [alsAddParameterCommandExecutor]

/-- Witness for C2 at a concrete record and confirmed text. -/
theorem C2_confirmation_resolves_true_and_sets_text_witness :
    (alsAddParameterCommandExecutor ⟨some "old", some false⟩ (some "A : Natural")).result
        = ExecResult.resolved true ∧
    (alsAddParameterCommandExecutor ⟨some "old", some false⟩
        (some "A : Natural")).finalArgs.newParameter = some "A : Natural" :=
  C2_confirmation_resolves_true_and_sets_text ⟨some "old", some false⟩ false "old"
    "A : Natural" rfl rfl

/-- C3: with both fields present, cancelling the prompt makes the executor
resolve to `false` and leaves the record's `newParameter` field unchanged. -/
theorem C3_cancellation_resolves_false_without_mutation
    (args : AddParameterCommandArgs) (flag : Bool) (p : String)
    (hf : args.requiresFullSpecification = some flag)
    (hn : args.newParameter = some p) :
    (alsAddParameterCommandExecutor args none).result = ExecResult.resolved false ∧
    (alsAddParameterCommandExecutor args none).finalArgs.newParameter
        = args.newParameter := by
  cases args
  simp_all [alsAddParameterCommandExecutor]

/-- Witness for C3 at a concrete record. -/
theorem C3_cancellation_resolves_false_without_mutation_witness :
    (alsAddParameterCommandExecutor ⟨some "kept", some true⟩ none).result
        = ExecResult.resolved false ∧
    (alsAddParameterCommandExecutor ⟨some "kept", some true⟩ none).finalArgs.newParameter
        = (⟨some "kept", some true⟩ : AddParameterCommandArgs).newParameter :=
  C3_cancellation_resolves_false_without_mutation ⟨some "kept", some true⟩ true "kept"
    rfl rfl

/-- C4: with both fields present, the prompt text, the grammar-rule set and
the diagnostic message of the shown input box are each selected purely by
`requiresFullSpecification` between the two fixed variants: for `true` the
full-specification prompt with the single-rule set, for `false` the
name-or-full prompt with the three-rule set, each with its fixed
diagnostic. -/
theorem C4_variant_selected_by_flag
    (args : AddParameterCommandArgs) (flag : Bool) (p : String)
    (userInput : Option String)
    (hf : args.requiresFullSpecification = some flag)
    (hn : args.newParameter = some p) :
    ∃ opts : InputBoxOptions,
      (alsAddParameterCommandExecutor args userInput).promptShown = some opts ∧
      opts.prompt = (if flag then
          "Insert a full parameter specification"
        else
          "Insert one or more comma-separated parameter names or a full parameter specification") ∧
      opts.validateInput.rules = (if flag then
          [AdaGrammarRule.Param_Spec_Rule]
        else
          [AdaGrammarRule.Defining_Id_Rule, AdaGrammarRule.Defining_Id_List_Rule,
            AdaGrammarRule.Param_Spec_Rule]) ∧
      opts.validateInput.diagnostic = (if flag then
          "This is not a syntactically valid full parameter specification"
        else
          "This is not a syntactically valid parameter name or full parameter specification") := by
  cases args
  cases userInput <;> simp_all [alsAddParameterCommandExecutor]

/-- Witness for C4 at a concrete record with the flag set to `false`. -/
theorem C4_variant_selected_by_flag_witness :
    ∃ opts : InputBoxOptions,
      (alsAddParameterCommandExecutor ⟨some "", some false⟩ none).promptShown
          = some opts ∧
      opts.prompt = (if false then
          "Insert a full parameter specification"
        else
          "Insert one or more comma-separated parameter names or a full parameter specification") ∧
      opts.validateInput.rules = (if false then
          [AdaGrammarRule.Param_Spec_Rule]
        else
          [AdaGrammarRule.Defining_Id_Rule, AdaGrammarRule.Defining_Id_List_Rule,
            AdaGrammarRule.Param_Spec_Rule]) ∧
      opts.validateInput.diagnostic = (if false then
          "This is not a syntactically valid full parameter specification"
        else
          "This is not a syntactically valid parameter name or full parameter specification") :=
  C4_variant_selected_by_flag ⟨some "", some false⟩ false "" none rfl rfl

/-- C5: every invocation ends in exactly one of three outcomes: resolved
`true` after confirmed input with the record's text field set to it,
resolved `false` after cancellation with the record untouched, or rejected
with the fixed diagnostic string when a field is missing. -/
theorem C5_outcome_trichotomy
    (args : AddParameterCommandArgs) (userInput : Option String) :
    ((args.requiresFullSpecification = none ∨ args.newParameter = none) ∧
      (alsAddParameterCommandExecutor args userInput).result
          = ExecResult.rejected missingFieldDiagnostic ∧
      (alsAddParameterCommandExecutor args userInput).promptShown = none) ∨
    (∃ t : String, userInput = some t ∧
      (alsAddParameterCommandExecutor args userInput).result
          = ExecResult.resolved true ∧
      (alsAddParameterCommandExecutor args userInput).finalArgs.newParameter = some t) ∨
    (userInput = none ∧
      (alsAddParameterCommandExecutor args userInput).result
          = ExecResult.resolved false ∧
      (alsAddParameterCommandExecutor args userInput).finalArgs = args) := by
  cases hf : args.requiresFullSpecification <;>
    cases hn : args.newParameter <;>
    cases userInput <;>
    simp_all [alsAddParameterCommandExecutor]

/-- C6: the executor never modifies `requiresFullSpecification`, and
`newParameter` either keeps its initial value or is overwritten with the
confirmed text of an invocation that resolved to `true`. -/
theorem C6_mutation_frame
    (args : AddParameterCommandArgs) (userInput : Option String) :
    (alsAddParameterCommandExecutor args userInput).finalArgs.requiresFullSpecification
        = args.requiresFullSpecification ∧
    ((alsAddParameterCommandExecutor args userInput).finalArgs.newParameter
        = args.newParameter ∨
      (∃ t : String, userInput = some t ∧
        (alsAddParameterCommandExecutor args userInput).result
            = ExecResult.resolved true ∧
        (alsAddParameterCommandExecutor args userInput).finalArgs.newParameter
            = some t)) := by
  cases hf : args.requiresFullSpecification <;>
    cases hn : args.newParameter <;>
    cases userInput <;>
    cases args <;>
    simp_all [alsAddParameterCommandExecutor]

/-- C7: on the record with empty text and the flag set, confirming the text
"X : Integer" resolves to `true` and leaves the record with that text and
the flag still set. -/
theorem C7_concrete_scenario :
    (alsAddParameterCommandExecutor ⟨some "", some true⟩ (some "X : Integer")).result
        = ExecResult.resolved true ∧
    (alsAddParameterCommandExecutor ⟨some "", some true⟩ (some "X : Integer")).finalArgs
        = ⟨some "X : Integer", some true⟩ := by
  exact ⟨rfl, rfl⟩

/-- C8: with both fields present, the shown input box carries the fixed
title "Add Parameter(s)", has `ignoreFocusOut` set, and its `validateInput`
callback is the syntax-check capability constructed with the selected
grammar rules and diagnostic. -/
theorem C8_input_box_configuration
    (args : AddParameterCommandArgs) (flag : Bool) (p : String)
    (userInput : Option String)
    (hf : args.requiresFullSpecification = some flag)
    (hn : args.newParameter = some p) :
    ∃ opts : InputBoxOptions,
      (alsAddParameterCommandExecutor args userInput).promptShown = some opts ∧
      opts.title = "Add Parameter(s)" ∧
      opts.ignoreFocusOut = true ∧
      opts.validateInput = AdaSyntaxCheckProvider.mk
        (if flag then
          [AdaGrammarRule.Param_Spec_Rule]
        else
          [AdaGrammarRule.Defining_Id_Rule, AdaGrammarRule.Defining_Id_List_Rule,
            AdaGrammarRule.Param_Spec_Rule])
        (if flag then
          "This is not a syntactically valid full parameter specification"
        else
          "This is not a syntactically valid parameter name or full parameter specification") := by
  cases args
  cases userInput <;> simp_all [alsAddParameterCommandExecutor]

/-- Witness for C8 at a concrete record with the flag set to `true`. -/
theorem C8_input_box_configuration_witness :
    ∃ opts : InputBoxOptions,
      (alsAddParameterCommandExecutor ⟨some "", some true⟩ (some "B : Boolean")).promptShown
          = some opts ∧
      opts.title = "Add Parameter(s)" ∧
      opts.ignoreFocusOut = true ∧
      opts.validateInput = AdaSyntaxCheckProvider.mk
        (if true then
          [AdaGrammarRule.Param_Spec_Rule]
        else
          [AdaGrammarRule.Defining_Id_Rule, AdaGrammarRule.Defining_Id_List_Rule,
            AdaGrammarRule.Param_Spec_Rule])
        (if true then
          "This is not a syntactically valid full parameter specification"
        else
          "This is not a syntactically valid parameter name or full parameter specification") :=
  C8_input_box_configuration ⟨some "", some true⟩ true "" (some "B : Boolean") rfl rfl

/-- C9: when the executor rejects because a required field is absent, the
argument record is returned completely unchanged. -/
theorem C9_rejection_preserves_record
    (args : AddParameterCommandArgs) (userInput : Option String)
    (h : args.newParameter = none ∨ args.requiresFullSpecification = none) :
    (alsAddParameterCommandExecutor args userInput).finalArgs = args := by
  cases hf : args.requiresFullSpecification <;>
    cases hn : args.newParameter <;>
    simp_all [alsAddParameterCommandExecutor]

/-- Witness for C9 at the concrete record with an absent flag field. -/
theorem C9_rejection_preserves_record_witness :
    (alsAddParameterCommandExecutor ⟨some "kept", none⟩ none).finalArgs
        = ⟨some "kept", none⟩ :=
  C9_rejection_preserves_record ⟨some "kept", none⟩ none (Or.inr rfl)

/-- C10: confirming the empty string is not a cancellation: with both fields
present, a confirmed empty text resolves to `true` and overwrites the
record's `newParameter` field with the empty string. -/
theorem C10_empty_confirmation_is_not_cancel
    (args : AddParameterCommandArgs) (flag : Bool) (p : String)
    (hf : args.requiresFullSpecification = some flag)
    (hn : args.newParameter = some p) :
    (alsAddParameterCommandExecutor args (some "")).result
        = ExecResult.resolved true ∧
    (alsAddParameterCommandExecutor args (some "")).finalArgs.newParameter = some "" := by
  cases args
  simp_all [alsAddParameterCommandExecutor]

/-- Witness for C10 at a concrete record whose text field starts nonempty. -/
theorem C10_empty_confirmation_is_not_cancel_witness :
    (alsAddParameterCommandExecutor ⟨some "previous", some false⟩ (some "")).result
        = ExecResult.resolved true ∧
    (alsAddParameterCommandExecutor ⟨some "previous", some false⟩
        (some "")).finalArgs.newParameter = some "" :=
  C10_empty_confirmation_is_not_cancel ⟨some "previous", some false⟩ false "previous"
    rfl rfl
